import Mathlib

/-!
Verification development for the price_google_search repository
(`streamlit_app.py`).  The external SaaS services (Google Custom Search,
OpenAI, FireCrawl) are modelled as explicit function parameters returning
`Except String _` (an `.error` value stands for a raised Python exception);
all pure logic — query construction, domain extraction, priority flagging
and sorting, truncation, per-item error isolation — is embedded directly
from the source.
-/

namespace PriceSearch

/-- Does the character list `s` start with the pattern `p`?  (Helper for the
Python substring test `pat in s` and for the regex model.) -/
def startsWithL : List Char → List Char → Bool
  | _, [] => true
  | [], _ :: _ => false
  | c :: cs, p :: ps => c == p && startsWithL cs ps

/-- Does the character list `s` contain `p` as a contiguous substring?
Models Python's `p in s` on strings. -/
def containsSubL : List Char → List Char → Bool
  | [], p => p.isEmpty
  | c :: cs, p => startsWithL (c :: cs) p || containsSubL cs p

/-- Python's substring containment `pat in s` on `String`. -/
def containsStr (s pat : String) : Bool :=
  containsSubL s.data pat.data

/-- Attempt to match the tail of the regex `https?://(?:www\.)?([^/]+)`
after the `://` has been consumed: optionally (greedily, with backtracking)
consume `www.`, then capture one or more non-`/` characters. -/
def matchAfterScheme (cs : List Char) : Option (List Char) :=
  let tryHost : List Char → Option (List Char) := fun rest =>
    let host := rest.takeWhile (fun c => c ≠ '/')
    if host.isEmpty then none else some host
  match cs with
  | 'w' :: 'w' :: 'w' :: '.' :: rest =>
    match tryHost rest with
    | some h => some h
    | none => tryHost cs
  | _ => tryHost cs

/-- Attempt to match the regex `https?://(?:www\.)?([^/]+)` at the start of
`cs`, returning the capture group. -/
def matchSchemeAt : List Char → Option (List Char)
  | 'h' :: 't' :: 't' :: 'p' :: rest =>
    match rest with
    | 's' :: ':' :: '/' :: '/' :: rest2 => matchAfterScheme rest2
    | ':' :: '/' :: '/' :: rest2 => matchAfterScheme rest2
    | _ => none
  | _ => none

/-- Model of `re.search(r'https?://(?:www\.)?([^/]+)', url)`: scan for the
leftmost position at which the pattern matches and return group 1. -/
def searchHost : List Char → Option (List Char)
  | [] => none
  | c :: rest =>
    match matchSchemeAt (c :: rest) with
    | some h => some h
    | none => searchHost rest

/-- Domain extraction used at both construction sites of a search result:
`domain_match.group(1) if domain_match else "Unknown domain"`. -/
def extractDomain (url : String) : String :=
  match searchHost url.data with
  | some h => String.mk h
  | none => "Unknown domain"

/-- One item of the Google Custom Search response (`result["items"][i]`);
the JSON keys are all optional, read with `item.get(key, default)`. -/
structure SearchItem where
  title : Option String
  link : Option String
  snippet : Option String
deriving Repr, DecidableEq

/-- A search result dict as built by `retrieve_search_results`. -/
structure SearchResult where
  title : String
  url : String
  snippet : String
  domain : String
  is_priority_domain : Bool
deriving Repr, DecidableEq

/-- Build one result dict from a response item with a given priority flag:
titles/links/snippets default per `item.get(...)`, the domain comes from
`extractDomain` on the url. -/
def mkResult (it : SearchItem) (pri : Bool) : SearchResult :=
  let url := it.link.getD ""
  { title := it.title.getD "No title"
    url := url
    snippet := it.snippet.getD "No description"
    domain := extractDomain url
    is_priority_domain := pri }

/-- The priority flag of the open/include-exclude path:
`any(inc_domain in domain for inc_domain in included_domains)` guarded by
`if included_domains:` (both `None` and `[]` leave the flag `False`). -/
def openFlag (included_domains : Option (List String)) (domain : String) : Bool :=
  (included_domains.getD []).any (fun inc => containsStr domain inc)

/-- A result of the open path, flagged against the included-domain list. -/
def mkOpenResult (included_domains : Option (List String)) (it : SearchItem) : SearchResult :=
  mkResult it (openFlag included_domains (extractDomain (it.link.getD "")))

/-- Sort key of `search_results.sort(key=lambda x: not x.get("is_priority_domain", False))`. -/
def sortKey (r : SearchResult) : Bool :=
  !r.is_priority_domain

/-- Stable insertion of `x` into an already-sorted list: `x` passes exactly
the elements whose key is strictly smaller, hence lands before every
element of equal key (elements of the original list that came after it). -/
def insertStable (x : SearchResult) : List SearchResult → List SearchResult
  | [] => [x]
  | y :: ys =>
    if (!(sortKey y)) && sortKey x then y :: insertStable x ys
    else x :: y :: ys

/-- Model of Python's stable `list.sort(key=...)` on the two-valued key
`not is_priority_domain` (a stable sort is uniquely determined by its key
and stability, so any stable algorithm embeds it faithfully). -/
def pySort : List SearchResult → List SearchResult
  | [] => []
  | x :: xs => insertStable x (pySort xs)

/-- Constructed query of the open/include-exclude path:
`f"{query} site:.lt -filetype:pdf"` followed by one ` -site:{domain}`
per excluded domain (the `if excluded_domains and len(...) > 0` guard in the
source only skips an empty loop). -/
def openQuery (query : String) (excluded_domains : Option (List String)) : String :=
  match excluded_domains.getD [] with
  | [] => query ++ " site:.lt -filetype:pdf"
  | e :: es =>
    (e :: es).foldl (fun acc d => acc ++ " -site:" ++ d)
      (query ++ " site:.lt -filetype:pdf")

/-- The ` -site:` clauses appended to the open-path query, one per element
of the excluded list, in order. -/
def openClauses (excluded_domains : Option (List String)) : List String :=
  (excluded_domains.getD []).map (fun d => " -site:" ++ d)

/-- Concatenation of a list of strings (in order). -/
def concatStrings : List String → String
  | [] => ""
  | s :: ss => s ++ concatStrings ss

/-- The per-domain loop of the restricted path: for each whitelist domain,
issue `f"{query} site:{domain}"` asking for `n` results; a raised exception
(`.error`) or a response without an `"items"` key (`.ok none`) contributes
nothing and the loop continues; each returned item is flagged
`is_priority_domain = True`. -/
def restrictedCollect (svc : String → Nat → Except String (Option (List SearchItem)))
    (query : String) (n : Nat) : List String → List SearchResult
  | [] => []
  | d :: ds =>
    (match svc (query ++ " site:" ++ d) n with
     | .ok (some items) => items.map (fun it => mkResult it true)
     | .ok none => []
     | .error _ => []) ++ restrictedCollect svc query n ds

/-- Return value of `retrieve_search_results`: either
`{"results": ..., "query": ...}` or `{"error": ...}`. -/
inductive SearchOutcome where
  | results (res : List SearchResult) (query : String)
  | failure (msg : String)
deriving Repr, DecidableEq

/-- Embedding of `retrieve_search_results` (streamlit_app.py lines 367-479).
The Google client is the parameter `svc : query → num → Except String _`,
where `.error` models a raised exception and `.ok none` a response dict
without an `"items"` key.  The first component records the requests issued
to the service (query string and requested result count `num`), the second
is the returned dict.  The restricted branch is taken when
`restricted_domains and len(restricted_domains) > 0`; per-domain failures
are caught inside the loop, while an open-path failure is caught by the
outer `try` and surfaced as the error dict. -/
def retrieve_search_results (query : String)
    (restricted_domains included_domains excluded_domains : Option (List String))
    (svc : String → Nat → Except String (Option (List SearchItem)))
    (num_results : Nat) : List (String × Nat) × SearchOutcome :=
  let D := restricted_domains.getD []
  if D.isEmpty then
    let mq := openQuery query excluded_domains
    match svc mq num_results with
    | .error e =>
      ([(mq, num_results)], .failure ("Google Search API request failed: " ++ e))
    | .ok none => ([(mq, num_results)], .results [] mq)
    | .ok (some items) =>
      let base := items.map (mkOpenResult included_domains)
      let sorted := if (included_domains.getD []).isEmpty then base else pySort base
      ([(mq, num_results)], .results sorted mq)
  else
    let results_per_domain := max 1 (num_results / D.length)
    let n := min results_per_domain 10
    (D.map (fun d => (query ++ " site:" ++ d, n)),
     .results ((restrictedCollect svc query n D).take num_results)
       (query ++ " (restricted to: " ++ String.intercalate ", " D ++ ")"))

/-- Parsed JSON object of the chat-completion response inside
`generate_search_phrase`: both fields are read with
`response_json.get(key, default)`, so each is optional. -/
structure PhraseRespJson where
  search_phrase : Option String
  keywords : Option (List String)
deriving Repr, DecidableEq

/-- The returned `SearchPhrase` pydantic model. -/
structure SearchPhraseOut where
  search_phrase : String
  keywords : List String
deriving Repr, DecidableEq

/-- Embedding of `generate_search_phrase` (streamlit_app.py lines 212-364).
The parameter `resp` models the whole guarded block: the chat-completion
call plus `json.loads` of its content; `.error` stands for any raised
exception (API failure, malformed JSON), which the `except` clause turns
into `None`.  On success the fields are copied verbatim from the response
JSON with defaults `""` and `[]`. -/
def generate_search_phrase (resp : Except String PhraseRespJson) : Option SearchPhraseOut :=
  match resp with
  | .error _ => none
  | .ok r => some { search_phrase := r.search_phrase.getD "", keywords := r.keywords.getD [] }

/-- One entry of the aggregator URL list: `url_data.get("product_url", "")`
reads an optional key. -/
structure UrlEntry where
  product_name : Option String
  product_url : Option String
deriving Repr, DecidableEq

/-- A `ProductPrice` record extracted by the LLM. -/
structure ProductRec where
  provider : String
  provider_website : String
  provider_url : String
  product_name : String
  product_properties : String
  product_sku : String
  product_price : String
  price_per_ : String
  evaluation : String
deriving Repr, DecidableEq

/-- The per-sub-URL loop of the aggregator branch of `analyze_product_url`:
an entry with a missing or empty `product_url` is skipped before the inner
`try`; inside it, a raised exception while scraping (`.error`), a scrape
result without `"markdown"` (`.ok none`), or a raised exception in the LLM
extraction contributes nothing and iteration continues with the remaining
entries. -/
def analyzeSub (scrape : String → Except String (Option String))
    (extract : String → Except String (List ProductRec)) :
    List UrlEntry → List ProductRec
  | [] => []
  | u :: us =>
    let pu := u.product_url.getD ""
    if pu = "" then analyzeSub scrape extract us
    else
      (match scrape pu with
       | .ok (some content) =>
         match extract content with
         | .ok ps => ps
         | .error _ => []
       | .ok none => []
       | .error _ => []) ++ analyzeSub scrape extract us

/-- Embedding of `analyze_product_url` (streamlit_app.py lines 119-209).
`scrape` models `app.scrape_url(...).model_dump()` (`.ok none` = result
without a `"markdown"` key, `.error` = raised exception), `getUrlsF` models
`get_urls`, `extract` models the `client.responses.parse` product
extraction.  The outer `try` turns a whole-page failure into `None`; an
aggregator page with no relevant sub-URLs returns `[]`; per-sub-URL
failures are isolated by `analyzeSub`. -/
def analyze_product_url (is_aggregator_page : Bool)
    (scrape : String → Except String (Option String))
    (getUrlsF : String → Except String (List UrlEntry))
    (extract : String → Except String (List ProductRec))
    (url : String) : Option (List ProductRec) :=
  match scrape url with
  | .error _ => none
  | .ok none => none
  | .ok (some content) =>
    if is_aggregator_page then
      match getUrlsF content with
      | .error _ => none
      | .ok [] => some []
      | .ok us => some (analyzeSub scrape extract us)
    else
      match extract content with
      | .error _ => none
      | .ok ps => some ps

/-! Helper lemmas. -/

/-- Two strings with the same character data are equal. -/
theorem strExt {s t : String} (h : s.data = t.data) : s = t := by
  cases s; cases t; exact congrArg String.mk h

/-- Appending a fixed string on the left is injective. -/
theorem siteClause_inj : Function.Injective (fun d : String => " -site:" ++ d) := by
  intro a b h
  apply strExt
  have h2 := congrArg String.data h
  rw [String.data_append, String.data_append] at h2
  exact List.append_cancel_left h2

/-- The open-path exclusion fold appends one clause per excluded domain. -/
theorem foldl_site_eq (E : List String) (acc : String) :
    E.foldl (fun a d => a ++ " -site:" ++ d) acc
      = acc ++ concatStrings (E.map (fun d => " -site:" ++ d)) := by
  induction E generalizing acc with
  | nil => simp [concatStrings, String.append_empty]
  | cons e es ih =>
    simp only [List.foldl_cons, List.map_cons, concatStrings]
    rw [ih]
    simp [String.append_assoc]

/-- The constructed open-path query is the base query followed by the
concatenated clauses. -/
theorem openQuery_eq (q : String) (exc : Option (List String)) :
    openQuery q exc
      = q ++ " site:.lt -filetype:pdf" ++ concatStrings (openClauses exc) := by
  unfold openQuery openClauses
  cases exc.getD [] with
  | nil => simp [concatStrings, String.append_empty]
  | cons e es =>
    dsimp only
    rw [foldl_site_eq]

/-- Inserting a priority-flagged element never moves past anything. -/
theorem insertStable_pri (x : SearchResult) (hx : x.is_priority_domain = true)
    (l : List SearchResult) : insertStable x l = x :: l := by
  cases l with
  | nil => rfl
  | cons y ys => simp [insertStable, sortKey, hx]

/-- Inserting a non-priority element walks past a priority-flagged block. -/
theorem insertStable_append_pri (x : SearchResult) (hx : x.is_priority_domain = false)
    (A : List SearchResult) (hA : ∀ a ∈ A, a.is_priority_domain = true)
    (B : List SearchResult) :
    insertStable x (A ++ B) = A ++ insertStable x B := by
  induction A with
  | nil => rfl
  | cons a as ih =>
    have ha := hA a (by simp)
    simp only [List.cons_append, insertStable, sortKey, ha, hx]
    simp [ih (fun a' ha' => hA a' (by simp [ha']))]

/-- Inserting a non-priority element into a non-priority block puts it first
(it came earlier in the original list). -/
theorem insertStable_nonpri (x : SearchResult) (hx : x.is_priority_domain = false)
    (B : List SearchResult) (hB : ∀ b ∈ B, b.is_priority_domain = false) :
    insertStable x B = x :: B := by
  cases B with
  | nil => rfl
  | cons b bs =>
    have hb := hB b (by simp)
    simp [insertStable, sortKey, hb, hx]

/-- The stable sort on the Boolean key `not is_priority_domain` is exactly
the stable partition: flagged entries first, each group in original order. -/
theorem pySort_partition (l : List SearchResult) :
    pySort l = l.filter (fun r => r.is_priority_domain)
      ++ l.filter (fun r => !r.is_priority_domain) := by
  induction l with
  | nil => rfl
  | cons x xs ih =>
    by_cases hx : x.is_priority_domain = true
    · rw [pySort, ih, insertStable_pri x hx]
      simp [List.filter_cons, hx]
    · have hx' : x.is_priority_domain = false := by simpa using hx
      rw [pySort, ih,
        insertStable_append_pri x hx' _
          (fun a ha => by simpa using (List.mem_filter.mp ha).2) _,
        insertStable_nonpri x hx' _
          (fun b hb => by simpa using (List.mem_filter.mp hb).2)]
      simp [List.filter_cons, hx']

/-- Every element of the sorted list came from the unsorted list. -/
theorem mem_pySort {r : SearchResult} {l : List SearchResult} (h : r ∈ pySort l) :
    r ∈ l := by
  rw [pySort_partition] at h
  rcases List.mem_append.mp h with h | h <;> exact List.mem_of_mem_filter h

/-- Every result collected by the restricted-path loop is priority-flagged. -/
theorem mem_restrictedCollect_flag
    (svc : String → Nat → Except String (Option (List SearchItem)))
    (query : String) (n : Nat) :
    ∀ D : List String, ∀ r ∈ restrictedCollect svc query n D,
      r.is_priority_domain = true := by
  intro D
  induction D with
  | nil => intro r hr; simp [restrictedCollect] at hr
  | cons d ds ih =>
    intro r hr
    rw [restrictedCollect] at hr
    rcases List.mem_append.mp hr with h | h
    · split at h
      · obtain ⟨it, _, rfl⟩ := List.mem_map.mp h
        rfl
      · simp at h
      · simp at h
    · exact ih r h

/-- Every result collected by the restricted-path loop has its domain
derived from its url. -/
theorem mem_restrictedCollect_domain
    (svc : String → Nat → Except String (Option (List SearchItem)))
    (query : String) (n : Nat) :
    ∀ D : List String, ∀ r ∈ restrictedCollect svc query n D,
      r.domain = extractDomain r.url := by
  intro D
  induction D with
  | nil => intro r hr; simp [restrictedCollect] at hr
  | cons d ds ih =>
    intro r hr
    rw [restrictedCollect] at hr
    rcases List.mem_append.mp hr with h | h
    · split at h
      · obtain ⟨it, _, rfl⟩ := List.mem_map.mp h
        rfl
      · simp at h
      · simp at h
    · exact ih r h

/-- Every result built by the open path has its domain derived from its
url. -/
theorem mkOpenResult_domain (inc : Option (List String)) (it : SearchItem) :
    (mkOpenResult inc it).domain = extractDomain (mkOpenResult inc it).url := rfl

/-- In duplicate-free excluded lists each domain yields exactly one clause. -/
theorem openClauses_count_of_nodup (E : List String) (hE : E.Nodup) (d : String)
    (hd : d ∈ E) : (openClauses (some E)).count (" -site:" ++ d) = 1 := by
  unfold openClauses
  simp only [Option.getD_some]
  rw [List.count_map_of_injective E _ siteClause_inj d]
  exact List.count_eq_one_of_mem hE hd

/-- Evaluation of the restricted branch of `retrieve_search_results`. -/
theorem retrieve_restricted_eq (query : String) (D : List String)
    (inc exc : Option (List String))
    (svc : String → Nat → Except String (Option (List SearchItem)))
    (N : Nat) (hD : D ≠ []) :
    retrieve_search_results query (some D) inc exc svc N
      = (D.map (fun d => (query ++ " site:" ++ d, min (max 1 (N / D.length)) 10)),
         .results ((restrictedCollect svc query (min (max 1 (N / D.length)) 10) D).take N)
           (query ++ " (restricted to: " ++ String.intercalate ", " D ++ ")")) := by
  have hDe : D.isEmpty = false := by
    cases D with
    | nil => exact absurd rfl hD
    | cons d ds => rfl
  unfold retrieve_search_results
  simp [hDe]

/-- Evaluation of the open/include-exclude branch of
`retrieve_search_results` (taken when the restricted list is `None` or
empty). -/
theorem retrieve_open_eq (query : String) (rd inc exc : Option (List String))
    (svc : String → Nat → Except String (Option (List SearchItem)))
    (N : Nat) (hrd : rd.getD [] = []) :
    retrieve_search_results query rd inc exc svc N
      = match svc (openQuery query exc) N with
        | .error e =>
          ([(openQuery query exc, N)],
           .failure ("Google Search API request failed: " ++ e))
        | .ok none => ([(openQuery query exc, N)], .results [] (openQuery query exc))
        | .ok (some items) =>
          ([(openQuery query exc, N)],
           .results
             (if (inc.getD []).isEmpty then items.map (mkOpenResult inc)
              else pySort (items.map (mkOpenResult inc)))
             (openQuery query exc)) := by
  unfold retrieve_search_results
  rw [hrd]
  rfl

/-! Claims. -/

/-- C1: for every call to `retrieve_search_results` with a non-empty
restricted-domains list `D` and requested total `N`, the retriever issues
exactly `|D|` per-domain sub-queries (one query `query ++ " site:" ++ d`
per domain `d` of `D`), returns at most `N` results, and every returned
result has `is_priority_domain = true`. -/
theorem restricted_issues_per_domain_and_flags (query : String) (D : List String)
    (inc exc : Option (List String))
    (svc : String → Nat → Except String (Option (List SearchItem)))
    (N : Nat) (hD : D ≠ []) :
    (retrieve_search_results query (some D) inc exc svc N).1
        = D.map (fun d => (query ++ " site:" ++ d, min (max 1 (N / D.length)) 10))
      ∧ (retrieve_search_results query (some D) inc exc svc N).1.length = D.length
      ∧ ∃ res mq,
          (retrieve_search_results query (some D) inc exc svc N).2 = .results res mq
          ∧ res.length ≤ N
          ∧ ∀ r ∈ res, r.is_priority_domain = true := by
  rw [retrieve_restricted_eq query D inc exc svc N hD]
  refine ⟨rfl, by simp, _, _, rfl, ?_, ?_⟩
  · exact (List.length_take N _).le.trans (min_le_left _ _)
  · intro r hr
    exact mem_restrictedCollect_flag svc query _ D r (List.mem_of_mem_take hr)

/-- C1 witness: a concrete restricted call with two whitelisted domains. -/
theorem restricted_issues_per_domain_and_flags_witness :
    (["varle.lt", "pigu.lt"] : List String) ≠ []
    ∧ ((retrieve_search_results "telefonas kaina" (some ["varle.lt", "pigu.lt"]) none none
          (fun _ _ => .ok (some [⟨some "T", some "https://www.varle.lt/a", some "S"⟩])) 10).1
        = ["varle.lt", "pigu.lt"].map
            (fun d => ("telefonas kaina" ++ " site:" ++ d,
              min (max 1 (10 / (["varle.lt", "pigu.lt"] : List String).length)) 10))
      ∧ (retrieve_search_results "telefonas kaina" (some ["varle.lt", "pigu.lt"]) none none
          (fun _ _ => .ok (some [⟨some "T", some "https://www.varle.lt/a", some "S"⟩])) 10).1.length
        = (["varle.lt", "pigu.lt"] : List String).length
      ∧ ∃ res mq,
          (retrieve_search_results "telefonas kaina" (some ["varle.lt", "pigu.lt"]) none none
            (fun _ _ => .ok (some [⟨some "T", some "https://www.varle.lt/a", some "S"⟩])) 10).2
            = .results res mq
          ∧ res.length ≤ 10
          ∧ ∀ r ∈ res, r.is_priority_domain = true) :=
  ⟨by decide,
   restricted_issues_per_domain_and_flags "telefonas kaina" ["varle.lt", "pigu.lt"] none none
     (fun _ _ => .ok (some [⟨some "T", some "https://www.varle.lt/a", some "S"⟩])) 10
     (by decide)⟩

/-- C2 counterexample: with the duplicated excluded list
`["delfi.lt", "delfi.lt"]` (obtainable from the direct-search text area,
which does not deduplicate), the excluded domain `delfi.lt` appears as a
`-site:` clause twice, not exactly once, in the single constructed query. -/
theorem excluded_clause_duplicated :
    "delfi.lt" ∈ (["delfi.lt", "delfi.lt"] : List String)
    ∧ (openClauses (some ["delfi.lt", "delfi.lt"])).count (" -site:" ++ "delfi.lt") ≠ 1
    ∧ (retrieve_search_results "q" none none (some ["delfi.lt", "delfi.lt"])
        (fun _ _ => .ok none) 10).1
      = [("q site:.lt -filetype:pdf -site:delfi.lt -site:delfi.lt", 10)] := by
  decide

/-- C2 (amended): without restricted domains the retriever issues the single
query `q ++ " site:.lt -filetype:pdf"` followed by one ` -site:` clause per
element of the excluded list, in order; and provided the excluded list has
no duplicates, every excluded domain appears as a `-site:` clause exactly
once. -/
theorem open_query_clauses (q d : String) (E : List String)
    (inc : Option (List String))
    (svc : String → Nat → Except String (Option (List SearchItem)))
    (N : Nat) (hE : E.Nodup) (hd : d ∈ E) :
    openQuery q (some E)
        = q ++ " site:.lt -filetype:pdf" ++ concatStrings (openClauses (some E))
      ∧ openClauses (some E) = E.map (fun d' => " -site:" ++ d')
      ∧ (retrieve_search_results q none inc (some E) svc N).1
        = [(openQuery q (some E), N)]
      ∧ (openClauses (some E)).count (" -site:" ++ d) = 1 := by
  refine ⟨openQuery_eq q (some E), rfl, ?_, openClauses_count_of_nodup E hE d hd⟩
  rw [retrieve_open_eq q none inc (some E) svc N rfl]
  cases svc (openQuery q (some E)) N with
  | error e => rfl
  | ok o => cases o <;> rfl

/-- C2 witness: a concrete duplicate-free excluded list. -/
theorem open_query_clauses_witness :
    (["delfi.lt", "lrt.lt"] : List String).Nodup
    ∧ "delfi.lt" ∈ (["delfi.lt", "lrt.lt"] : List String)
    ∧ (openQuery "q" (some ["delfi.lt", "lrt.lt"])
        = "q" ++ " site:.lt -filetype:pdf"
            ++ concatStrings (openClauses (some ["delfi.lt", "lrt.lt"]))
      ∧ openClauses (some ["delfi.lt", "lrt.lt"])
        = ["delfi.lt", "lrt.lt"].map (fun d' => " -site:" ++ d')
      ∧ (retrieve_search_results "q" none none (some ["delfi.lt", "lrt.lt"])
          (fun _ _ => .ok none) 10).1
        = [(openQuery "q" (some ["delfi.lt", "lrt.lt"]), 10)]
      ∧ (openClauses (some ["delfi.lt", "lrt.lt"])).count (" -site:" ++ "delfi.lt") = 1) :=
  ⟨by decide, by decide,
   open_query_clauses "q" "delfi.lt" ["delfi.lt", "lrt.lt"] none
     (fun _ _ => .ok none) 10 (by decide) (by decide)⟩

/-- Filtering a stable partition by the partitioning predicate recovers the
corresponding block. -/
theorem filter_stable_partition (l : List SearchResult) (p : SearchResult → Bool) :
    ((l.filter p ++ l.filter (fun a => !p a)).filter p = l.filter p)
    ∧ ((l.filter p ++ l.filter (fun a => !p a)).filter (fun a => !p a)
        = l.filter (fun a => !p a)) := by
  constructor <;>
  · rw [List.filter_append, List.filter_filter, List.filter_filter]
    simp

/-- C3: in open/include-exclude mode with a non-empty included-domains list,
the returned result list places all priority-flagged entries before all
non-flagged entries, and the sort is stable: each flag group preserves the
relative order in which the search API returned the items. -/
theorem open_priority_sort_stable (q : String) (inc : List String)
    (exc : Option (List String))
    (svc : String → Nat → Except String (Option (List SearchItem)))
    (N : Nat) (items : List SearchItem)
    (hinc : inc ≠ [])
    (hsvc : svc (openQuery q exc) N = .ok (some items)) :
    ∃ out,
      (retrieve_search_results q none (some inc) exc svc N).2
          = .results out (openQuery q exc)
      ∧ out = out.filter (fun r => r.is_priority_domain)
            ++ out.filter (fun r => !r.is_priority_domain)
      ∧ out.filter (fun r => r.is_priority_domain)
          = (items.map (mkOpenResult (some inc))).filter (fun r => r.is_priority_domain)
      ∧ out.filter (fun r => !r.is_priority_domain)
          = (items.map (mkOpenResult (some inc))).filter (fun r => !r.is_priority_domain) := by
  have hince : ((some inc).getD ([] : List String)).isEmpty = false := by
    cases inc with
    | nil => exact absurd rfl hinc
    | cons i is => rfl
  rw [retrieve_open_eq q none (some inc) exc svc N rfl]
  rw [hsvc]
  simp only [hince, Bool.false_eq_true, if_false]
  refine ⟨pySort (items.map (mkOpenResult (some inc))), rfl, ?_, ?_, ?_⟩
  · rw [pySort_partition,
      (filter_stable_partition _ (fun r => r.is_priority_domain)).1,
      (filter_stable_partition _ (fun r => r.is_priority_domain)).2]
  · rw [pySort_partition,
      (filter_stable_partition _ (fun r => r.is_priority_domain)).1]
  · rw [pySort_partition,
      (filter_stable_partition _ (fun r => r.is_priority_domain)).2]

/-- C3 witness: a concrete open-mode search whose response interleaves a
non-priority hit, two priority hits and another non-priority hit. -/
theorem open_priority_sort_stable_witness :
    (["varle.lt"] : List String) ≠ []
    ∧ ((fun _ _ => .ok (some
          [⟨some "A", some "https://x.lt/a", some "s"⟩,
           ⟨some "B", some "https://varle.lt/b", some "s"⟩,
           ⟨some "C", some "https://y.lt/c", some "s"⟩,
           ⟨some "D", some "https://www.varle.lt/d", some "s"⟩])
        : String → Nat → Except String (Option (List SearchItem)))
        (openQuery "q" none) 10
      = .ok (some
          [⟨some "A", some "https://x.lt/a", some "s"⟩,
           ⟨some "B", some "https://varle.lt/b", some "s"⟩,
           ⟨some "C", some "https://y.lt/c", some "s"⟩,
           ⟨some "D", some "https://www.varle.lt/d", some "s"⟩]))
    ∧ ∃ out,
        (retrieve_search_results "q" none (some ["varle.lt"]) none
          (fun _ _ => .ok (some
            [⟨some "A", some "https://x.lt/a", some "s"⟩,
             ⟨some "B", some "https://varle.lt/b", some "s"⟩,
             ⟨some "C", some "https://y.lt/c", some "s"⟩,
             ⟨some "D", some "https://www.varle.lt/d", some "s"⟩])) 10).2
            = .results out (openQuery "q" none)
        ∧ out = out.filter (fun r => r.is_priority_domain)
              ++ out.filter (fun r => !r.is_priority_domain)
        ∧ out.filter (fun r => r.is_priority_domain)
            = (([⟨some "A", some "https://x.lt/a", some "s"⟩,
                 ⟨some "B", some "https://varle.lt/b", some "s"⟩,
                 ⟨some "C", some "https://y.lt/c", some "s"⟩,
                 ⟨some "D", some "https://www.varle.lt/d", some "s"⟩]
                : List SearchItem).map (mkOpenResult (some ["varle.lt"]))).filter
                (fun r => r.is_priority_domain)
        ∧ out.filter (fun r => !r.is_priority_domain)
            = (([⟨some "A", some "https://x.lt/a", some "s"⟩,
                 ⟨some "B", some "https://varle.lt/b", some "s"⟩,
                 ⟨some "C", some "https://y.lt/c", some "s"⟩,
                 ⟨some "D", some "https://www.varle.lt/d", some "s"⟩]
                : List SearchItem).map (mkOpenResult (some ["varle.lt"]))).filter
                (fun r => !r.is_priority_domain) :=
  ⟨by decide, rfl,
   open_priority_sort_stable "q" ["varle.lt"] none
     (fun _ _ => .ok (some
       [⟨some "A", some "https://x.lt/a", some "s"⟩,
        ⟨some "B", some "https://varle.lt/b", some "s"⟩,
        ⟨some "C", some "https://y.lt/c", some "s"⟩,
        ⟨some "D", some "https://www.varle.lt/d", some "s"⟩])) 10 _
     (by decide) rfl⟩

/-- C4 counterexample: a well-formed service response without a
`search_phrase` key yields a successful (non-`None`) result whose phrase is
the empty string and does not contain `"kaina"` — the code copies the
model's output verbatim and never validates it. -/
theorem phrase_not_validated :
    generate_search_phrase (.ok { search_phrase := none, keywords := none })
      = some { search_phrase := "", keywords := [] }
    ∧ ("" : String) = ""
    ∧ containsStr "" "kaina" = false := by decide

/-- C4 (amended): every successful result of `generate_search_phrase`
copies the response's `search_phrase` field verbatim (default `""` when
absent); consequently the returned phrase is non-empty and contains
`"kaina"` exactly when the service's response phrase contains `"kaina"` —
not regardless of the response. -/
theorem phrase_copied_from_response (r : PhraseRespJson) (s : String)
    (hs : r.search_phrase = some s) (hk : containsStr s "kaina" = true) :
    ∃ out, generate_search_phrase (.ok r) = some out
      ∧ out.search_phrase = s
      ∧ containsStr out.search_phrase "kaina" = true
      ∧ out.search_phrase ≠ "" := by
  refine ⟨⟨r.search_phrase.getD "", r.keywords.getD []⟩, rfl, ?_, ?_, ?_⟩
  · simp [hs]
  · simp [hs, hk]
  · simp only [hs, Option.getD_some]
    intro h
    rw [h] at hk
    exact absurd hk (by decide)

/-- C4 witness: a concrete response whose phrase carries `"kaina"`. -/
theorem phrase_copied_from_response_witness :
    ({ search_phrase := some "LED lempute 4W kaina", keywords := some ["kaina"] }
        : PhraseRespJson).search_phrase = some "LED lempute 4W kaina"
    ∧ containsStr "LED lempute 4W kaina" "kaina" = true
    ∧ ∃ out,
        generate_search_phrase
          (.ok { search_phrase := some "LED lempute 4W kaina", keywords := some ["kaina"] })
          = some out
        ∧ out.search_phrase = "LED lempute 4W kaina"
        ∧ containsStr out.search_phrase "kaina" = true
        ∧ out.search_phrase ≠ "" :=
  ⟨rfl, by decide,
   phrase_copied_from_response
     { search_phrase := some "LED lempute 4W kaina", keywords := some ["kaina"] }
     "LED lempute 4W kaina" rfl (by decide)⟩

/-- C5 fails on the code: in the open/include-exclude path the single
request is issued with `num = num_results` uncapped, so the direct-search
maximum of 30 results yields a request asking for 30 per call, although
the code itself notes the search API's per-call maximum of 10 (and caps
only the restricted path). -/
theorem open_path_request_exceeds_cap :
    (retrieve_search_results "telefonas kaina" none none none
        (fun _ _ => .ok none) 30).1
      = [("telefonas kaina site:.lt -filetype:pdf", 30)]
    ∧ ¬(30 ≤ 10)
    ∧ ∀ p ∈ (retrieve_search_results "telefonas kaina" (some ["varle.lt"]) none none
        (fun _ _ => .ok none) 30).1, p.2 ≤ 10 := by decide

/-- C6: in restricted mode every per-domain request asks for
`min (max 1 (N / |D|)) 10` results, and the concatenated result list is
truncated to the first `N` entries. -/
theorem restricted_quota_and_truncation (query : String) (D : List String)
    (inc exc : Option (List String))
    (svc : String → Nat → Except String (Option (List SearchItem)))
    (N : Nat) (hD : D ≠ []) :
    (∀ p ∈ (retrieve_search_results query (some D) inc exc svc N).1,
        p.2 = min (max 1 (N / D.length)) 10)
    ∧ (retrieve_search_results query (some D) inc exc svc N).2
        = .results ((restrictedCollect svc query (min (max 1 (N / D.length)) 10) D).take N)
            (query ++ " (restricted to: " ++ String.intercalate ", " D ++ ")") := by
  rw [retrieve_restricted_eq query D inc exc svc N hD]
  constructor
  · intro p hp
    obtain ⟨d, _, rfl⟩ := List.mem_map.mp hp
    rfl
  · rfl

/-- C6 witness: three whitelisted domains and a requested total of 20 give
a per-domain quota of 6; a single domain with total 30 is capped at 10. -/
theorem restricted_quota_and_truncation_witness :
    (["varle.lt", "pigu.lt", "senukai.lt"] : List String) ≠ []
    ∧ (∀ p ∈ (retrieve_search_results "q" (some ["varle.lt", "pigu.lt", "senukai.lt"])
          none none (fun _ _ => .ok none) 20).1,
        p.2 = min (max 1 (20 / (["varle.lt", "pigu.lt", "senukai.lt"] : List String).length)) 10)
    ∧ (retrieve_search_results "q" (some ["varle.lt", "pigu.lt", "senukai.lt"])
          none none (fun _ _ => .ok none) 20).2
        = .results
            ((restrictedCollect (fun _ _ => .ok none) "q"
                (min (max 1 (20 / (["varle.lt", "pigu.lt", "senukai.lt"] : List String).length)) 10)
                ["varle.lt", "pigu.lt", "senukai.lt"]).take 20)
            ("q" ++ " (restricted to: "
              ++ String.intercalate ", " ["varle.lt", "pigu.lt", "senukai.lt"] ++ ")") :=
  ⟨by decide,
   (restricted_quota_and_truncation "q" ["varle.lt", "pigu.lt", "senukai.lt"] none none
     (fun _ _ => .ok none) 20 (by decide)).1,
   (restricted_quota_and_truncation "q" ["varle.lt", "pigu.lt", "senukai.lt"] none none
     (fun _ _ => .ok none) 20 (by decide)).2⟩

/-- C7: in every policy mode, each returned search result's `domain` field
is `extractDomain` of its `url` field (the regex host-extraction with the
`"Unknown domain"` fallback) — it is never taken from any other source. -/
theorem domain_always_from_url (query : String) (rd inc exc : Option (List String))
    (svc : String → Nat → Except String (Option (List SearchItem)))
    (N : Nat) (res : List SearchResult) (mq : String)
    (hres : (retrieve_search_results query rd inc exc svc N).2 = .results res mq) :
    ∀ r ∈ res, r.domain = extractDomain r.url := by
  by_cases hD : rd.getD [] = []
  · rw [retrieve_open_eq query rd inc exc svc N hD] at hres
    cases hsvc : svc (openQuery query exc) N with
    | error e =>
      rw [hsvc] at hres
      simp at hres
    | ok o =>
      cases o with
      | none =>
        rw [hsvc] at hres
        simp only [SearchOutcome.results.injEq] at hres
        rw [← hres.1]
        intro r hr
        simp at hr
      | some items =>
        rw [hsvc] at hres
        simp only [SearchOutcome.results.injEq] at hres
        intro r hr
        rw [← hres.1] at hr
        have hr2 : r ∈ items.map (mkOpenResult inc) := by
          by_cases hi : ((inc.getD []).isEmpty : Bool) = true
          · simpa [hi] using hr
          · have hi' : ((inc.getD []).isEmpty : Bool) = false := by
              simpa using hi
            rw [if_neg (by simp [hi'])] at hr
            exact mem_pySort hr
        obtain ⟨it, _, rfl⟩ := List.mem_map.mp hr2
        rfl
  · obtain ⟨D, rfl, hne⟩ : ∃ D, rd = some D ∧ D ≠ [] := by
      cases rd with
      | none => simp at hD
      | some D =>
        refine ⟨D, rfl, fun h => hD ?_⟩
        simp [h]
    rw [retrieve_restricted_eq query D inc exc svc N hne] at hres
    simp only [SearchOutcome.results.injEq] at hres
    intro r hr
    rw [← hres.1] at hr
    exact mem_restrictedCollect_domain svc query _ D r (List.mem_of_mem_take hr)

/-- C7 witness: a concrete open-mode run; the hit with an unparsable url
gets the fallback domain, still derived through `extractDomain`. -/
theorem domain_always_from_url_witness :
    (retrieve_search_results "q" none none none
        (fun _ _ => .ok (some
          [⟨some "A", some "https://www.varle.lt/a", some "s"⟩,
           ⟨some "B", some "not a url", some "s"⟩])) 10).2
      = .results
          [⟨"A", "https://www.varle.lt/a", "s", "varle.lt", false⟩,
           ⟨"B", "not a url", "s", "Unknown domain", false⟩]
          "q site:.lt -filetype:pdf"
    ∧ ∀ r ∈ ([⟨"A", "https://www.varle.lt/a", "s", "varle.lt", false⟩,
              ⟨"B", "not a url", "s", "Unknown domain", false⟩] : List SearchResult),
        r.domain = extractDomain r.url :=
  ⟨by decide,
   domain_always_from_url "q" none none none
     (fun _ _ => .ok (some
       [⟨some "A", some "https://www.varle.lt/a", some "s"⟩,
        ⟨some "B", some "not a url", some "s"⟩])) 10
     [⟨"A", "https://www.varle.lt/a", "s", "varle.lt", false⟩,
      ⟨"B", "not a url", "s", "Unknown domain", false⟩]
     "q site:.lt -filetype:pdf" (by decide)⟩

/-- C10: a `None` or empty restricted-domains list does not short-circuit
to an empty whitelist result: the call behaves exactly as the open mode,
issuing the single query over all `.lt` domains. -/
theorem empty_whitelist_falls_through_to_open (query : String)
    (inc exc : Option (List String))
    (svc : String → Nat → Except String (Option (List SearchItem))) (N : Nat) :
    retrieve_search_results query (some []) inc exc svc N
        = retrieve_search_results query none inc exc svc N
      ∧ (retrieve_search_results query (some []) inc exc svc N).1
        = [(openQuery query exc, N)] := by
  constructor
  · rw [retrieve_open_eq query (some []) inc exc svc N rfl,
      retrieve_open_eq query none inc exc svc N rfl]
  · rw [retrieve_open_eq query (some []) inc exc svc N rfl]
    cases svc (openQuery query exc) N with
    | error e => rfl
    | ok o => cases o <;> rfl

/-- C8: `retrieve_search_results` never lets a service failure escape: for
every input and service behaviour the outcome is a results dict or an
error dict; and in restricted mode a failure while querying one domain is
caught (that domain contributes nothing), the remaining domains are still
queried (one request per whitelisted domain) and the outcome is still a
results dict, never an error. -/
theorem search_errors_contained (query d e : String) (ds : List String)
    (rd inc exc : Option (List String))
    (svc : String → Nat → Except String (Option (List SearchItem)))
    (N n : Nat)
    (hfail : svc (query ++ " site:" ++ d) n = .error e) :
    ((∃ res mq, (retrieve_search_results query rd inc exc svc N).2 = .results res mq)
      ∨ (∃ m, (retrieve_search_results query rd inc exc svc N).2 = .failure m))
    ∧ restrictedCollect svc query n (d :: ds) = restrictedCollect svc query n ds
    ∧ (∃ res mq,
        (retrieve_search_results query (some (d :: ds)) inc exc svc N).2 = .results res mq)
    ∧ (retrieve_search_results query (some (d :: ds)) inc exc svc N).1.length
        = (d :: ds).length := by
  refine ⟨?_, ?_, ?_, ?_⟩
  · by_cases hD : rd.getD [] = []
    · rw [retrieve_open_eq query rd inc exc svc N hD]
      cases hsvc : svc (openQuery query exc) N with
      | error e2 => exact Or.inr ⟨_, rfl⟩
      | ok o => cases o <;> exact Or.inl ⟨_, _, rfl⟩
    · obtain ⟨D, rfl, hne⟩ : ∃ D, rd = some D ∧ D ≠ [] := by
        cases rd with
        | none => simp at hD
        | some D =>
          refine ⟨D, rfl, fun h => hD ?_⟩
          simp [h]
      rw [retrieve_restricted_eq query D inc exc svc N hne]
      exact Or.inl ⟨_, _, rfl⟩
  · rw [restrictedCollect, hfail]
    simp
  · rw [retrieve_restricted_eq query (d :: ds) inc exc svc N (by simp)]
    exact ⟨_, _, rfl⟩
  · rw [retrieve_restricted_eq query (d :: ds) inc exc svc N (by simp)]
    simp

/-- C8 witness: the service raises on the first whitelisted domain but
answers on the second; the call still returns a results dict with the
second domain's hit, and both domains were queried. -/
theorem search_errors_contained_witness :
    ((fun q _ => if q = "kaina site:varle.lt" then .error "HTTP 500"
        else .ok (some [⟨some "T", some "https://pigu.lt/x", some "s"⟩]))
        : String → Nat → Except String (Option (List SearchItem)))
        ("kaina" ++ " site:" ++ "varle.lt") 5 = .error "HTTP 500"
    ∧ (((∃ res mq, (retrieve_search_results "kaina" (some ["varle.lt", "pigu.lt"]) none none
          (fun q _ => if q = "kaina site:varle.lt" then .error "HTTP 500"
            else .ok (some [⟨some "T", some "https://pigu.lt/x", some "s"⟩])) 10).2
          = .results res mq)
        ∨ (∃ m, (retrieve_search_results "kaina" (some ["varle.lt", "pigu.lt"]) none none
          (fun q _ => if q = "kaina site:varle.lt" then .error "HTTP 500"
            else .ok (some [⟨some "T", some "https://pigu.lt/x", some "s"⟩])) 10).2
          = .failure m))
      ∧ restrictedCollect
          (fun q _ => if q = "kaina site:varle.lt" then .error "HTTP 500"
            else .ok (some [⟨some "T", some "https://pigu.lt/x", some "s"⟩]))
          "kaina" 5 ["varle.lt", "pigu.lt"]
        = restrictedCollect
          (fun q _ => if q = "kaina site:varle.lt" then .error "HTTP 500"
            else .ok (some [⟨some "T", some "https://pigu.lt/x", some "s"⟩]))
          "kaina" 5 ["pigu.lt"]
      ∧ (∃ res mq, (retrieve_search_results "kaina" (some ["varle.lt", "pigu.lt"]) none none
          (fun q _ => if q = "kaina site:varle.lt" then .error "HTTP 500"
            else .ok (some [⟨some "T", some "https://pigu.lt/x", some "s"⟩])) 10).2
          = .results res mq)
      ∧ (retrieve_search_results "kaina" (some ["varle.lt", "pigu.lt"]) none none
          (fun q _ => if q = "kaina site:varle.lt" then .error "HTTP 500"
            else .ok (some [⟨some "T", some "https://pigu.lt/x", some "s"⟩])) 10).1.length
        = (["varle.lt", "pigu.lt"] : List String).length) :=
  ⟨by simp,
   search_errors_contained "kaina" "varle.lt" "HTTP 500" ["pigu.lt"]
     (some ["varle.lt", "pigu.lt"]) none none
     (fun q _ => if q = "kaina site:varle.lt" then .error "HTTP 500"
       else .ok (some [⟨some "T", some "https://pigu.lt/x", some "s"⟩])) 10 5
     (by simp)⟩

/-- C9: `analyze_product_url` never propagates a failure: a scrape raise or
a scrape result without markdown yields `None`; a raise in the aggregator
URL extraction yields `None`; an aggregator page with no relevant sub-URLs
yields the empty list; a failure while analyzing one sub-URL contributes
nothing and iteration continues with the remaining sub-URLs; and every
call returns either `None` or a product list — never an exception. -/
theorem analyze_errors_isolated (url pu e2 : String) (u : UrlEntry)
    (us : List UrlEntry)
    (scrape : String → Except String (Option String))
    (getUrlsF : String → Except String (List UrlEntry))
    (extract : String → Except String (List ProductRec))
    (agg : Bool)
    (hpu : u.product_url = some pu) (hpune : pu ≠ "")
    (hscrapefail : scrape pu = .error e2) :
    (∀ msg, scrape url = .error msg →
        analyze_product_url agg scrape getUrlsF extract url = none)
    ∧ (scrape url = .ok none →
        analyze_product_url agg scrape getUrlsF extract url = none)
    ∧ (∀ c msg, scrape url = .ok (some c) → getUrlsF c = .error msg →
        analyze_product_url true scrape getUrlsF extract url = none)
    ∧ (∀ c, scrape url = .ok (some c) → getUrlsF c = .ok [] →
        analyze_product_url true scrape getUrlsF extract url = some [])
    ∧ analyzeSub scrape extract (u :: us) = analyzeSub scrape extract us
    ∧ (analyze_product_url agg scrape getUrlsF extract url = none
        ∨ ∃ ps, analyze_product_url agg scrape getUrlsF extract url = some ps) := by
  refine ⟨?_, ?_, ?_, ?_, ?_, ?_⟩
  · intro msg h
    simp [analyze_product_url, h]
  · intro h
    simp [analyze_product_url, h]
  · intro c msg h1 h2
    simp [analyze_product_url, h1, h2]
  · intro c h1 h2
    simp [analyze_product_url, h1, h2]
  · rw [analyzeSub]
    simp [hpu, hpune, hscrapefail]
  · cases hs : scrape url with
    | error m => exact Or.inl (by simp [analyze_product_url, hs])
    | ok o =>
      cases o with
      | none => exact Or.inl (by simp [analyze_product_url, hs])
      | some c =>
        cases agg with
        | false =>
          cases he : extract c with
          | error m => exact Or.inl (by simp [analyze_product_url, hs, he])
          | ok ps => exact Or.inr ⟨ps, by simp [analyze_product_url, hs, he]⟩
        | true =>
          cases hg : getUrlsF c with
          | error m => exact Or.inl (by simp [analyze_product_url, hs, hg])
          | ok l =>
            cases l with
            | nil => exact Or.inr ⟨[], by simp [analyze_product_url, hs, hg]⟩
            | cons v vs =>
              exact Or.inr ⟨analyzeSub scrape extract (v :: vs),
                by simp [analyze_product_url, hs, hg]⟩

/-- C9 witness: an aggregator page with two sub-URLs whose first sub-URL
fails to scrape; the first entry is skipped and the loop continues. -/
theorem analyze_errors_isolated_witness :
    (⟨some "P1", some "http://item1.lt"⟩ : UrlEntry).product_url = some "http://item1.lt"
    ∧ ("http://item1.lt" : String) ≠ ""
    ∧ ((fun s => if s = "http://item1.lt" then .error "boom" else .ok (some "C"))
        : String → Except String (Option String)) "http://item1.lt" = .error "boom"
    ∧ analyzeSub
        (fun s => if s = "http://item1.lt" then .error "boom" else .ok (some "C"))
        (fun _ => .ok [])
        [⟨some "P1", some "http://item1.lt"⟩, ⟨some "P2", some "http://item2.lt"⟩]
      = analyzeSub
        (fun s => if s = "http://item1.lt" then .error "boom" else .ok (some "C"))
        (fun _ => .ok [])
        [⟨some "P2", some "http://item2.lt"⟩] :=
  ⟨rfl, by decide, by simp,
   (analyze_errors_isolated "http://agg.lt" "http://item1.lt" "boom"
     ⟨some "P1", some "http://item1.lt"⟩ [⟨some "P2", some "http://item2.lt"⟩]
     (fun s => if s = "http://item1.lt" then .error "boom" else .ok (some "C"))
     (fun _ => .ok []) (fun _ => .ok []) true rfl (by decide) (by simp)).2.2.2.2.1⟩

end PriceSearch
